import Mathlib

/-!
Shallow embedding of two components of the fairlearn repository:
`fairlearn/metrics/_group_feature.py` (class `GroupFeature`) and
`fairlearn/reductions/_moments/moment.py` (classes `Moment`,
`ClassificationMoment`, `LossMoment`).

Feature values, labels and sensitive-feature values are modelled as `Int`
(any hashable scalar type works per element in the source; integers are a
faithful representative since only equality and ordering are used).
Python exceptions are modelled explicitly: `GroupFeature.__init__` returns
`Except ValueError GroupFeature`, and `Moment.load_data` returns a
`LoadResult` carrying both the optional raised error and the state of the
instance after the call, so that mutation-before-raise is observable.
-/

/-! ## Column-name constants, from the top of moment.py -/

def _GROUP_ID : String := "group_id"

def _LABEL : String := "label"

/-! ## GroupFeature (fairlearn/metrics/_group_feature.py) -/

/-- A value that a pandas Series name can carry, other than `None`.
The source distinguishes only strings (accepted) from everything else
(rejected with a `ValueError`); an integer is the representative non-string
used by the spec itself. -/
inductive NameVal where
  | str (s : String)
  | int (n : Int)
deriving DecidableEq

/-- Python str() of a name value, as interpolated into the error message. -/
def NameVal.pyStr : NameVal → String
  | .str s => s
  | .int n => toString n

/-- Python str(type(value)) of a name value, as interpolated into the error
message (for example <class \x27int\x27>). -/
def NameVal.pyTypeStr : NameVal → String
  | .str _ => "<class \x27str\x27>"
  | .int _ => "<class \x27int\x27>"

/-- The message template _SERIES_NAME_NOT_STRING =
"Series name must be a string. Value \x27{0}\x27 was of type {1}", already
applied with .format(value, type(value)). -/
def _SERIES_NAME_NOT_STRING (value : String) (typeStr : String) : String :=
  "Series name must be a string. Value \x27" ++ value ++ "\x27 was of type " ++ typeStr

/-- A Python ValueError, identified by its message. -/
structure ValueError where
  msg : String
deriving DecidableEq

/-- The feature_vector argument of GroupFeature.__init__: either a narwhals
Series, a pandas Series (each optionally carrying an intrinsic name), or a
plain unnamed array-like. -/
inductive FeatureVector where
  | nwSeries (values : List Int) (name : Option NameVal)
  | pdSeries (values : List Int) (name : Option NameVal)
  | array (values : List Int)
deriving DecidableEq

/-- The normalized raw_feature_ stored on the instance: a narwhals Series is
converted to pandas by to_pandas(); anything else is kept as is. -/
inductive RawFeature where
  | pdSeries (values : List Int) (name : Option NameVal)
  | array (values : List Int)
deriving DecidableEq

/-- The normalization on the first line of GroupFeature.__init__:
feature_vector.to_pandas() if isinstance(feature_vector, nw.Series) else
feature_vector. to_pandas preserves the underlying values and name. -/
def FeatureVector.normalize : FeatureVector → RawFeature
  | .nwSeries v n => .pdSeries v n
  | .pdSeries v n => .pdSeries v n
  | .array v => .array v

/-- The values carried by a raw feature. -/
def RawFeature.values : RawFeature → List Int
  | .pdSeries v _ => v
  | .array v => v

/-- The intrinsic name of a raw feature: .name of a pandas Series, absent for
a plain array-like. -/
def RawFeature.intrinsicName : RawFeature → Option NameVal
  | .pdSeries _ n => n
  | .array _ => none

/-- Whether the raw feature is a pandas Series (the isinstance test in
GroupFeature.__init__). -/
def RawFeature.isPdSeries : RawFeature → Bool
  | .pdSeries _ _ => true
  | .array _ => false

/-- Insert a value into a strictly-sorted list, keeping it strictly sorted
(dropping the value when already present). -/
def insertSortedUnique (x : Int) : List Int → List Int
  | [] => [x]
  | y :: ys =>
    if x < y then x :: y :: ys
    else if x = y then y :: ys
    else y :: insertSortedUnique x ys

/-- numpy.unique: the distinct values of the input, sorted ascending. -/
def np_unique (l : List Int) : List Int :=
  l.foldr insertSortedUnique []

/-- The state of a constructed GroupFeature instance. -/
structure GroupFeature where
  raw_feature_ : RawFeature
  classes_ : List Int
  name_ : String
deriving DecidableEq

/-- GroupFeature.__init__(base_name, feature_vector, index, name), with the
raised ValueError modelled as the Except error branch:
1. normalize feature_vector into raw_feature_;
2. classes_ = np.unique(raw_feature_);
3. name_ defaults to base_name + index, an explicit name overrides it;
   otherwise a pandas Series with a non-None string name supplies it, and a
   pandas Series with a non-None non-string name raises ValueError. -/
def GroupFeature.init (base_name : String) (feature_vector : FeatureVector)
    (index : Nat) (name : Option String) : Except ValueError GroupFeature :=
  let raw := feature_vector.normalize
  let classes := np_unique raw.values
  let default_name := base_name ++ toString index
  match name with
  | some n => .ok ⟨raw, classes, n⟩
  | none =>
    match raw with
    | .array _ => .ok ⟨raw, classes, default_name⟩
    | .pdSeries _ rawName =>
      match rawName with
      | none => .ok ⟨raw, classes, default_name⟩
      | some (.str s) => .ok ⟨raw, classes, s⟩
      | some v => .error ⟨_SERIES_NAME_NOT_STRING v.pyStr v.pyTypeStr⟩

/-! ## Moment (fairlearn/reductions/_moments/moment.py) -/

/-- A narwhals DataFrame, as used for the tags table: an ordered list of
named columns. -/
structure DataFrame where
  columns_data : List (String × List Int)
deriving DecidableEq

/-- DataFrame.columns: the column names in order. -/
def DataFrame.columns (df : DataFrame) : List String :=
  df.columns_data.map Prod.fst

/-- Look up a column by name (None when absent). -/
def DataFrame.get_column (df : DataFrame) (c : String) : Option (List Int) :=
  (df.columns_data.find? (fun p => p.1 == c)).map Prod.snd

/-- The number of rows of the DataFrame (shape[0]). -/
def DataFrame.nrows (df : DataFrame) : Nat :=
  match df.columns_data with
  | [] => 0
  | c :: _ => c.2.length

/-- narwhals with_columns with a single aliased series: replaces the column
when the name already exists, otherwise appends it on the right. -/
def DataFrame.with_columns (df : DataFrame) (c : String) (vals : List Int) :
    DataFrame :=
  if df.columns.contains c then
    ⟨df.columns_data.map (fun p => if p.1 == c then (p.1, vals) else p)⟩
  else
    ⟨df.columns_data ++ [(c, vals)]⟩

/-- Series.to_frame() on a series aliased to name c. -/
def to_frame (c : String) (vals : List Int) : DataFrame :=
  ⟨[(c, vals)]⟩

/-- The errors Moment methods can raise: the AssertionError from the
load-once assert (with its message) and the NotImplementedError raised by
the four abstract numerical operations. -/
inductive MomentError where
  | assertionError (msg : String)
  | notImplementedError
deriving DecidableEq

/-- Message of the assert at the top of load_data. -/
def _LOAD_ONCE_MSG : String := "data can be loaded only once"

/-- The attribute state of a Moment instance. __init__ only sets
data_loaded = False; X, _y and tags do not exist until load_data runs, hence
the Option types. -/
structure Moment where
  data_loaded : Bool
  X : Option (List (List Int))
  _y : Option (List Int)
  tags : Option DataFrame
deriving DecidableEq

/-- Moment.__init__(): data_loaded = False, no other attribute set. -/
def Moment.init : Moment :=
  ⟨false, none, none, none⟩

/-- Result of a call to load_data: the raised error when one was raised, and
the state of the instance when the call returns or the raise escapes. -/
structure LoadResult where
  error : Option MomentError
  state : Moment
deriving DecidableEq

/-- Moment.load_data(X, y, sensitive_features):
asserts data_loaded is False (raising before touching any attribute),
stores X and y, builds tags = y.alias("label").to_frame(), appends the
sensitive features under "group_id" when given, and finally sets
data_loaded = True. The from_native calls are identity normalizations in
this model (the arguments are already series/tables), and the print of
tags.columns is a pure stdout effect with no state content. -/
def Moment.load_data (m : Moment) (X : List (List Int)) (y : List Int)
    (sensitive_features : Option (List Int)) : LoadResult :=
  if m.data_loaded then
    ⟨some (.assertionError _LOAD_ONCE_MSG), m⟩
  else
    let tags0 := to_frame _LABEL y
    let tags1 :=
      match sensitive_features with
      | some s => tags0.with_columns _GROUP_ID s
      | none => tags0
    ⟨none, ⟨true, some X, some y, some tags1⟩⟩

/-- Moment.total_samples: X.shape[0]; absent (AttributeError) before
load_data has run. -/
def Moment.total_samples (m : Moment) : Option Nat :=
  m.X.map List.length

/-- An opaque predictor object, never inspected by the base class. -/
inductive Predictor where
  | mk
deriving DecidableEq

/-- Moment.gamma(predictor): raise NotImplementedError(). -/
def Moment.gamma (_m : Moment) (_predictor : Predictor) :
    Except MomentError (List Int) :=
  .error .notImplementedError

/-- Moment.bound(): raise NotImplementedError(). -/
def Moment.bound (_m : Moment) : Except MomentError (List Int) :=
  .error .notImplementedError

/-- Moment.project_lambda(lambda_vec): raise NotImplementedError(). -/
def Moment.project_lambda (_m : Moment) (_lambda_vec : List Int) :
    Except MomentError (List Int) :=
  .error .notImplementedError

/-- Moment.signed_weights(lambda_vec): raise NotImplementedError(). -/
def Moment.signed_weights (_m : Moment) (_lambda_vec : List Int) :
    Except MomentError (List Int) :=
  .error .notImplementedError

/-- The Python class objects that appear as return values of _moment_type
in this module. -/
inductive PyClass where
  | classificationMoment
  | lossMoment
  | notImplementedError
deriving DecidableEq

/-- A value returned by a _moment_type method: either a class object, or an
instance of NotImplementedError (the base Moment._moment_type evaluates
`return NotImplementedError()` — a constructor call, not a raise). -/
inductive MomentTypeResult where
  | cls (c : PyClass)
  | notImplementedErrorInstance
deriving DecidableEq

/-- Moment._moment_type(): returns (not raises) NotImplementedError(), an
instance of the exception class, as an ordinary value. -/
def Moment._moment_type (_m : Moment) : MomentTypeResult :=
  .notImplementedErrorInstance

/-- A ClassificationMoment instance: a Moment with no added state. -/
structure ClassificationMoment where
  toMoment : Moment
deriving DecidableEq

/-- ClassificationMoment(): super().__init__() only. -/
def ClassificationMoment.init : ClassificationMoment :=
  ⟨Moment.init⟩

/-- ClassificationMoment._moment_type(): returns the class
ClassificationMoment. -/
def ClassificationMoment._moment_type (_m : ClassificationMoment) :
    MomentTypeResult :=
  .cls .classificationMoment

/-- A LossMoment instance: a Moment plus the opaque reduction_loss object
stored at construction; L is the (arbitrary) type of that object. -/
structure LossMoment (L : Type) where
  toMoment : Moment
  reduction_loss : L

/-- LossMoment(loss): super().__init__() then self.reduction_loss = loss. -/
def LossMoment.init {L : Type} (loss : L) : LossMoment L :=
  ⟨Moment.init, loss⟩

/-- LossMoment._moment_type(): returns the class LossMoment. -/
def LossMoment._moment_type {L : Type} (_m : LossMoment L) : MomentTypeResult :=
  .cls .lossMoment

/-- Modelled from the spec: the name-resolution priority of section 4.1,
"explicit name argument, then intrinsic name on the feature if it is a
string, then default base_name followed by index"; stated separately from
GroupFeature.init so the two can be compared. -/
def resolve_name_spec (base_name : String) (index : Nat)
    (intrinsic : Option NameVal) (name : Option String) : String :=
  match name with
  | some n => n
  | none =>
    match intrinsic with
    | some (.str s) => s
    | _ => base_name ++ toString index

/-- Concrete base-name string used in witnesses, from the spec examples. -/
def sens_base : String := "sens_"

/-- Concrete explicit-name string used in witnesses, from the spec
examples. -/
def gender_name : String := "gender"

/-- Concrete feature vector with a non-string, non-None intrinsic name: a
pandas Series of values 1, 2, 1, 3 named by the integer 0 (the spec's own
example of an invalid name). -/
def cex_feature : FeatureVector :=
  .pdSeries [1, 2, 1, 3] (some (.int 0))

/-! ## Helper lemmas on np_unique -/

/-- Membership in the result of a sorted-unique insertion. -/
theorem mem_insertSortedUnique (a x : Int) (l : List Int) :
    a ∈ insertSortedUnique x l ↔ a = x ∨ a ∈ l := by
  induction l with
  | nil => simp [insertSortedUnique]
  | cons y ys ih =>
    by_cases h1 : x < y
    · simp [insertSortedUnique, h1]
    · by_cases h2 : x = y
      · subst h2
        simp [insertSortedUnique, h1]
      · simp [insertSortedUnique, h1, h2, ih]
        tauto

/-- Sorted-unique insertion preserves strict sortedness. -/
theorem pairwise_insertSortedUnique (x : Int) (l : List Int)
    (h : l.Pairwise (fun a b => a < b)) :
    (insertSortedUnique x l).Pairwise (fun a b => a < b) := by
  induction l with
  | nil => simp [insertSortedUnique]
  | cons y ys ih =>
    rw [List.pairwise_cons] at h
    obtain ⟨hy, hys⟩ := h
    by_cases h1 : x < y
    · rw [insertSortedUnique]
      simp only [if_pos h1, List.pairwise_cons]
      refine ⟨?_, ?_⟩
      · intro b hb
        rcases List.mem_cons.mp hb with hb | hb
        · exact hb ▸ h1
        · exact lt_trans h1 (hy b hb)
      · exact ⟨hy, hys⟩
    · by_cases h2 : x = y
      · rw [insertSortedUnique]
        simp only [if_neg h1, if_pos h2]
        exact List.pairwise_cons.mpr ⟨hy, hys⟩
      · have h3 : y < x := lt_of_le_of_ne (not_lt.mp h1) (Ne.symm h2)
        rw [insertSortedUnique]
        simp only [if_neg h1, if_neg h2, List.pairwise_cons]
        refine ⟨?_, ih hys⟩
        intro b hb
        rcases (mem_insertSortedUnique b x ys).mp hb with hb | hb
        · exact hb ▸ h3
        · exact hy b hb

/-- np_unique keeps exactly the values of its input. -/
theorem mem_np_unique (a : Int) (l : List Int) : a ∈ np_unique l ↔ a ∈ l := by
  induction l with
  | nil => simp [np_unique]
  | cons x xs ih =>
    show a ∈ insertSortedUnique x (np_unique xs) ↔ _
    rw [mem_insertSortedUnique, ih]
    simp

/-- np_unique is strictly sorted. -/
theorem pairwise_np_unique (l : List Int) :
    (np_unique l).Pairwise (fun a b => a < b) := by
  induction l with
  | nil => simp [np_unique]
  | cons x xs ih => exact pairwise_insertSortedUnique x (np_unique xs) ih

/-- np_unique is sorted ascending. -/
theorem sorted_np_unique (l : List Int) :
    (np_unique l).Sorted (fun a b => a ≤ b) :=
  (pairwise_np_unique l).imp (fun h => le_of_lt h)

/-- np_unique has no duplicates. -/
theorem nodup_np_unique (l : List Int) : (np_unique l).Nodup :=
  (pairwise_np_unique l).imp (fun h => ne_of_lt h)

/-- On an unloaded instance, load_data succeeds and the state it leaves
behind is fully determined: data_loaded true, X and y stored, tags built
from y (and the sensitive features when given). -/
theorem load_data_unloaded_eq (m : Moment) (X : List (List Int))
    (y : List Int) (s : Option (List Int)) (hm : m.data_loaded = false) :
    m.load_data X y s =
      ⟨none, ⟨true, some X, some y,
        some (match s with
          | some sv => (to_frame _LABEL y).with_columns _GROUP_ID sv
          | none => to_frame _LABEL y)⟩⟩ := by
  rw [Moment.load_data, if_neg (by rw [hm]; exact Bool.false_ne_true)]

/-! ## Claim theorems -/

/-- Claim C1: on a Moment instance on which load_data has already succeeded
once, a second load_data call fails with the lifecycle-violation
AssertionError (message "data can be loaded only once"), and the instance's
loaded state after the failed second call is exactly its state after the
first successful call. -/
theorem load_data_twice_fails (m m1 : Moment) (X X2 : List (List Int))
    (y y2 : List Int) (s s2 : Option (List Int))
    (h : m.load_data X y s = ⟨none, m1⟩) :
    (m1.load_data X2 y2 s2).error = some (.assertionError _LOAD_ONCE_MSG) ∧
    (m1.load_data X2 y2 s2).state = m1 := by
  have hm1 : m1.data_loaded = true := by
    by_cases hd : m.data_loaded
    · rw [Moment.load_data, if_pos hd] at h
      exact absurd (congrArg LoadResult.error h) (by simp)
    · rw [load_data_unloaded_eq m X y s (Bool.not_eq_true _ ▸ hd)] at h
      simp only [LoadResult.mk.injEq] at h
      rw [← h.2]
  rw [Moment.load_data, if_pos hm1]
  exact ⟨rfl, rfl⟩

/-- Witness for C1 at concrete inputs. -/
theorem load_data_twice_fails_witness :
    (Moment.init.load_data [[1]] [1] none = ⟨none, ⟨true, some [[1]], some [1], some (to_frame _LABEL [1])⟩⟩) ∧
    ((Moment.mk true (some [[1]]) (some [1]) (some (to_frame _LABEL [1]))).load_data [[2]] [2] none).error =
      some (.assertionError _LOAD_ONCE_MSG) :=
  ⟨by decide,
   (load_data_twice_fails Moment.init ⟨true, some [[1]], some [1], some (to_frame _LABEL [1])⟩
      [[1]] [[2]] [1] [2] none none (by decide)).1⟩

/-- Claim C3: load_data is atomic with respect to failure: when it raises,
the instance is left exactly as it was (in particular data_loaded is not
mutated and nothing is populated), and when it does not raise it fully
populates X, _y and tags. -/
theorem load_data_atomic (m : Moment) (X : List (List Int)) (y : List Int)
    (s : Option (List Int)) :
    ((m.load_data X y s).error.isSome = true → (m.load_data X y s).state = m) ∧
    ((m.load_data X y s).error = none →
      (m.load_data X y s).state.data_loaded = true ∧
      (m.load_data X y s).state.X = some X ∧
      (m.load_data X y s).state._y = some y ∧
      ((m.load_data X y s).state.tags).isSome = true) := by
  by_cases hd : m.data_loaded
  · rw [Moment.load_data, if_pos hd]
    exact ⟨fun _ => rfl, fun h => absurd h (by simp)⟩
  · rw [load_data_unloaded_eq m X y s (Bool.not_eq_true _ ▸ hd)]
    exact ⟨fun h => absurd h (by simp), fun _ => ⟨rfl, rfl, rfl, rfl⟩⟩

/-- Witness for C3: the failing side at an already-loaded instance, the
populating side at a fresh instance. -/
theorem load_data_atomic_witness :
    ((Moment.mk true none none none).load_data [[1]] [1] none).state =
      Moment.mk true none none none ∧
    (Moment.init.load_data [[1]] [1] none).state.X = some [[1]] :=
  ⟨(load_data_atomic (Moment.mk true none none none) [[1]] [1] none).1 (by decide),
   ((load_data_atomic Moment.init [[1]] [1] none).2 (by decide)).2.1⟩

/-- Claim C4: a successful load_data(features, labels, sensitive_features=s)
with N-row features, N labels and N sensitive values leaves
total_samples = N, a tags table of N rows, and a group_id column equal to s
(hence equal to s at every row index below N). -/
theorem load_data_sensitive_counts (m : Moment) (X : List (List Int))
    (y : List Int) (s : List Int) (N : Nat)
    (hm : m.data_loaded = false) (hX : X.length = N) (hy : y.length = N)
    (_hs : s.length = N) :
    (m.load_data X y (some s)).error = none ∧
    (m.load_data X y (some s)).state.total_samples = some N ∧
    ∃ t, (m.load_data X y (some s)).state.tags = some t ∧
      t.nrows = N ∧
      t.get_column _GROUP_ID = some s ∧
      ∀ i, i < N → (t.get_column _GROUP_ID).map (fun c => c.get? i) =
        some (s.get? i) := by
  have hne : (_LABEL == _GROUP_ID) = false := by decide
  have hne1 : _LABEL ≠ _GROUP_ID := by decide
  have hne2 : _GROUP_ID ≠ _LABEL := by decide
  rw [load_data_unloaded_eq m X y (some s) hm]
  refine ⟨rfl, ?_, ?_⟩
  · simp [Moment.total_samples, hX]
  · refine ⟨_, rfl, ?_, ?_, ?_⟩
    · simp [DataFrame.with_columns, to_frame, DataFrame.columns,
        DataFrame.nrows, hne, hne1, hne2, hy]
    · simp [DataFrame.with_columns, to_frame, DataFrame.columns,
        DataFrame.get_column, hne, hne1, hne2, List.find?]
    · intro i _
      simp [DataFrame.with_columns, to_frame, DataFrame.columns,
        DataFrame.get_column, hne, hne1, hne2, List.find?]

/-- Witness for C4 at concrete inputs. -/
theorem load_data_sensitive_counts_witness :
    (Moment.init.load_data [[1], [2]] [5, 6] (some [0, 1])).error = none ∧
    (Moment.init.load_data [[1], [2]] [5, 6] (some [0, 1])).state.total_samples =
      some 2 :=
  ⟨(load_data_sensitive_counts Moment.init [[1], [2]] [5, 6] [0, 1] 2
      rfl rfl rfl rfl).1,
   (load_data_sensitive_counts Moment.init [[1], [2]] [5, 6] [0, 1] 2
      rfl rfl rfl rfl).2.1⟩

/-- Claim C7: a successful load_data with sensitive_features=None leaves a
tags table with exactly one column, named label and containing the labels;
no group_id column is present. -/
theorem load_data_no_sensitive_tags (m : Moment) (X : List (List Int))
    (y : List Int) (hm : m.data_loaded = false) :
    (m.load_data X y none).error = none ∧
    ∃ t, (m.load_data X y none).state.tags = some t ∧
      t.columns = [_LABEL] ∧
      t.get_column _LABEL = some y ∧
      t.get_column _GROUP_ID = none := by
  have heq : (_LABEL == _LABEL) = true := by decide
  have hne : (_LABEL == _GROUP_ID) = false := by decide
  rw [load_data_unloaded_eq m X y none hm]
  refine ⟨rfl, _, rfl, ?_, ?_, ?_⟩
  · simp [to_frame, DataFrame.columns]
  · simp [to_frame, DataFrame.get_column, List.find?, heq]
  · simp [to_frame, DataFrame.get_column, List.find?, hne]

/-- Witness for C7 at concrete inputs. -/
theorem load_data_no_sensitive_tags_witness :
    (Moment.init.load_data [[1], [2]] [5, 6] none).error = none :=
  (load_data_no_sensitive_tags Moment.init [[1], [2]] [5, 6] rfl).1

/-- Claim C6: gamma, bound, project_lambda and signed_weights on an
unspecialized base Moment all raise NotImplementedError, an error distinct
from the data/lifecycle AssertionError, rather than crashing or returning a
silent default. -/
theorem base_moment_abstract_ops_raise (m : Moment) (p : Predictor)
    (lv lw : List Int) :
    m.gamma p = .error .notImplementedError ∧
    m.bound = .error .notImplementedError ∧
    m.project_lambda lv = .error .notImplementedError ∧
    m.signed_weights lw = .error .notImplementedError ∧
    ∀ msg, (MomentError.notImplementedError : MomentError) ≠
      .assertionError msg :=
  ⟨rfl, rfl, rfl, rfl, fun _ h => MomentError.noConfusion h⟩

/-- Claim C9: the _moment_type tags of ClassificationMoment and LossMoment
are distinct, and the reduction_loss stored by the LossMoment constructor is
exactly the loss object passed to it. -/
theorem moment_type_tags_distinct {L : Type} (loss : L)
    (cm : ClassificationMoment) (lm : LossMoment L) :
    cm._moment_type ≠ lm._moment_type ∧
    (LossMoment.init loss).reduction_loss = loss :=
  ⟨fun h => by simp [ClassificationMoment._moment_type,
      LossMoment._moment_type] at h,
   rfl⟩

/-- Claim C10 counterexample: the base Moment._moment_type does not return
the NotImplementedError class object; the source evaluates
`return NotImplementedError()` — a constructor call producing an instance,
not the class itself. -/
theorem base_moment_type_not_the_class :
    Moment.init._moment_type ≠ .cls .notImplementedError := by
  decide

/-- Claim C10 (amended): _moment_type on the base Moment does not raise; it
returns an instance of NotImplementedError as an ordinary value, which is
not any class tag. -/
theorem base_moment_type_returns_instance (m : Moment) :
    m._moment_type = .notImplementedErrorInstance ∧
    ∀ c, m._moment_type ≠ .cls c :=
  ⟨rfl, fun _ h => MomentTypeResult.noConfusion h⟩

/-- Expected default name for base "sens_" and index 2, from the spec
example. -/
def sens_2 : String := "sens_2"

/-- Claim C5: whenever GroupFeature construction succeeds, the resolved name
follows the priority "explicit name argument, else intrinsic string name,
else base_name followed by index", as captured by resolve_name_spec. -/
theorem groupfeature_name_priority (base : String) (fv : FeatureVector)
    (idx : Nat) (name : Option String) (gf : GroupFeature)
    (h : GroupFeature.init base fv idx name = .ok gf) :
    gf.name_ = resolve_name_spec base idx fv.normalize.intrinsicName name := by
  cases name with
  | some n =>
    simp only [GroupFeature.init, Except.ok.injEq] at h
    rw [← h]
    rfl
  | none =>
    cases hfv : fv.normalize with
    | array w =>
      simp only [GroupFeature.init, hfv, Except.ok.injEq] at h
      rw [← h]
      rfl
    | pdSeries w nm =>
      cases nm with
      | none =>
        simp only [GroupFeature.init, hfv, Except.ok.injEq] at h
        rw [← h]
        rfl
      | some v =>
        cases v with
        | str s =>
          simp only [GroupFeature.init, hfv, Except.ok.injEq] at h
          rw [← h]
          rfl
        | int k =>
          simp only [GroupFeature.init, hfv] at h
          exact Except.noConfusion h

/-- Witness for C5 at the spec's own example: an unnamed vector, base
"sens_", index 2, no explicit name, giving the name "sens_2". -/
theorem groupfeature_name_priority_witness :
    (GroupFeature.mk (RawFeature.array [1, 2, 1, 3]) [1, 2, 3] sens_2).name_ =
      resolve_name_spec sens_base 2 none none :=
  groupfeature_name_priority sens_base (FeatureVector.array [1, 2, 1, 3]) 2
    none (GroupFeature.mk (RawFeature.array [1, 2, 1, 3]) [1, 2, 3] sens_2)
    rfl

/-- Claim C2 counterexample: a feature vector whose intrinsic name is the
integer 0 (neither None nor a string) together with an explicit name
argument; construction succeeds with the explicit name, because the
intrinsic-name validation sits in the elif branch that an explicit name
short-circuits. -/
theorem explicit_name_overrides_invalid_intrinsic :
    GroupFeature.init sens_base cex_feature 2 (some gender_name) =
      .ok ⟨.pdSeries [1, 2, 1, 3] (some (.int 0)), [1, 2, 3], gender_name⟩ :=
  rfl

/-- Claim C2 (amended): when NO explicit name argument is supplied, a
feature vector whose intrinsic name is neither None nor a string makes
construction fail with the ValueError whose message embeds the offending
value and its observed type; the name is never silently coerced. -/
theorem groupfeature_invalid_intrinsic_name_fails (base : String)
    (fv : FeatureVector) (idx : Nat) (v : NameVal)
    (hname : fv.normalize.intrinsicName = some v)
    (hstr : ∀ s, v ≠ NameVal.str s) :
    GroupFeature.init base fv idx none =
      .error ⟨_SERIES_NAME_NOT_STRING v.pyStr v.pyTypeStr⟩ ∧
    ∃ pre mid, _SERIES_NAME_NOT_STRING v.pyStr v.pyTypeStr =
      pre ++ v.pyStr ++ mid ++ v.pyTypeStr := by
  constructor
  · cases hfv : fv.normalize with
    | array w =>
      rw [hfv] at hname
      exact absurd hname (by simp [RawFeature.intrinsicName])
    | pdSeries w nm =>
      rw [hfv] at hname
      simp only [RawFeature.intrinsicName] at hname
      subst hname
      cases v with
      | str s => exact absurd rfl (hstr s)
      | int k => simp [GroupFeature.init, hfv]
  · exact ⟨_, _, rfl⟩

/-- Witness for the amended C2 at the spec's example input: a pandas Series
named by the integer 0, with no explicit name. -/
theorem groupfeature_invalid_intrinsic_name_fails_witness :
    GroupFeature.init sens_base cex_feature 2 none =
      .error ⟨_SERIES_NAME_NOT_STRING (NameVal.int 0).pyStr
        (NameVal.int 0).pyTypeStr⟩ :=
  (groupfeature_invalid_intrinsic_name_fails sens_base cex_feature 2
    (NameVal.int 0) rfl (fun _ h => NameVal.noConfusion h)).1

/-- Claim C8: for every feature vector whose intrinsic name is a string or
absent, construction succeeds, stores the normalized raw values, and
classes_ is the duplicate-free ascending enumeration of exactly the values
occurring in them. -/
theorem groupfeature_classes_distinct_sorted (base : String)
    (fv : FeatureVector) (idx : Nat) (name : Option String)
    (hok : fv.normalize.intrinsicName = none ∨
      ∃ s, fv.normalize.intrinsicName = some (.str s)) :
    ∃ gf, GroupFeature.init base fv idx name = .ok gf ∧
      gf.raw_feature_ = fv.normalize ∧
      gf.classes_ = np_unique gf.raw_feature_.values ∧
      (∀ x, x ∈ gf.classes_ ↔ x ∈ gf.raw_feature_.values) ∧
      gf.classes_.Sorted (fun a b => a ≤ b) ∧
      gf.classes_.Nodup := by
  have hprops : ∀ r : RawFeature,
      (∀ x, x ∈ np_unique r.values ↔ x ∈ r.values) ∧
      (np_unique r.values).Sorted (fun a b => a ≤ b) ∧
      (np_unique r.values).Nodup :=
    fun r => ⟨fun x => mem_np_unique x r.values, sorted_np_unique r.values,
      nodup_np_unique r.values⟩
  cases name with
  | some n =>
    refine ⟨⟨fv.normalize, np_unique fv.normalize.values, n⟩, rfl, rfl, rfl,
      ?_⟩
    exact ⟨(hprops fv.normalize).1, (hprops fv.normalize).2.1,
      (hprops fv.normalize).2.2⟩
  | none =>
    cases hfv : fv.normalize with
    | array w =>
      refine ⟨⟨.array w, np_unique (RawFeature.array w).values,
        base ++ toString idx⟩, ?_, rfl, rfl, ?_⟩
      · simp [GroupFeature.init, hfv]
      · exact ⟨(hprops (.array w)).1, (hprops (.array w)).2.1,
          (hprops (.array w)).2.2⟩
    | pdSeries w nm =>
      rw [hfv] at hok
      simp only [RawFeature.intrinsicName] at hok
      rcases hok with hnm | ⟨s, hnm⟩
      · subst hnm
        refine ⟨⟨.pdSeries w none, np_unique (RawFeature.pdSeries w none).values,
          base ++ toString idx⟩, ?_, rfl, rfl, ?_⟩
        · simp [GroupFeature.init, hfv]
        · exact ⟨(hprops (.pdSeries w none)).1, (hprops (.pdSeries w none)).2.1,
            (hprops (.pdSeries w none)).2.2⟩
      · subst hnm
        refine ⟨⟨.pdSeries w (some (.str s)),
          np_unique (RawFeature.pdSeries w (some (.str s))).values, s⟩, ?_,
          rfl, rfl, ?_⟩
        · simp [GroupFeature.init, hfv]
        · exact ⟨(hprops (.pdSeries w (some (.str s)))).1,
            (hprops (.pdSeries w (some (.str s)))).2.1,
            (hprops (.pdSeries w (some (.str s)))).2.2⟩

/-- Witness for C8 at the spec's example: unnamed values 1, 2, 1, 3 give
classes 1, 2, 3. -/
theorem groupfeature_classes_distinct_sorted_witness :
    ∃ gf, GroupFeature.init sens_base (FeatureVector.array [1, 2, 1, 3]) 2
        none = .ok gf ∧
      gf.raw_feature_ = (FeatureVector.array [1, 2, 1, 3]).normalize ∧
      gf.classes_ = np_unique gf.raw_feature_.values ∧
      (∀ x, x ∈ gf.classes_ ↔ x ∈ gf.raw_feature_.values) ∧
      gf.classes_.Sorted (fun a b => a ≤ b) ∧
      gf.classes_.Nodup :=
  groupfeature_classes_distinct_sorted sens_base
    (FeatureVector.array [1, 2, 1, 3]) 2 none (Or.inl rfl)
